import Mathlib

/-!
Verification of the Colorific frontend against its specification.

The definitions below are a shallow embedding of the TypeScript sources of
the Angular presentation layer (`frontend/src/app/...`) and of the deployed
configuration (`config.yaml`).  JavaScript numbers holding pixel channels are
modelled as `Nat`, fractional numbers (percentages) as `Rat`, nullable fields
as `Option`, and JS arrays as `List`.
-/

namespace Colorific

/-- Color record (`ColorInterface` / `Color`) from `frontend/src/app/types.ts`:
integer channels `red`, `green`, `blue`, a fractional `percentage`, and the
nullable `name` / `name_distance` fields. -/
structure Color where
  red : Nat
  green : Nat
  blue : Nat
  percentage : Rat
  name : Option String
  name_distance : Option Rat
deriving DecidableEq, Repr

/-- The JS comparator `(a, b) => b.percentage - a.percentage` passed to
`Array.prototype.sort` in `ColorsResponse` and `ImageDetailResponse`:
`a` may precede `b` exactly when the comparator is `≤ 0`, i.e. when
`b.percentage ≤ a.percentage`. -/
def percentageDescLE (a b : Color) : Bool :=
  decide (b.percentage ≤ a.percentage)

/-- Constructor of `ColorsResponse` (`types.ts` lines 44-52): copies every entry
of the input array (`new Color(data[index])` is the identity at the value
level) and sorts the copies with the descending-percentage comparator. -/
def colorsResponse (data : List Color) : List Color :=
  List.mergeSort data percentageDescLE

/-- Image metadata record (`ImageDetailInterface`) from `types.ts` lines 56-61. -/
structure ImageDetail where
  id : String
  origin : String
  url_big : String
  url_thumb : String
deriving DecidableEq, Repr

/-- Payload of the `GET /images/{id}` response
(`ImageDetailResponseInterface`, `types.ts` lines 64-67). -/
structure ImageDetailResponseData where
  image : ImageDetail
  colors : List Color
deriving DecidableEq, Repr

/-- Constructor of `ImageDetailResponse` (`types.ts` lines 75-83): keeps the
`image` record, copies every color and sorts the copies with the
descending-percentage comparator. -/
def imageDetailResponse (data : ImageDetailResponseData) : ImageDetailResponseData :=
  { image := data.image
    colors := List.mergeSort data.colors percentageDescLE }

theorem percentageDescLE_trans (a b c : Color) :
    percentageDescLE a b → percentageDescLE b c → percentageDescLE a c := by
  simp only [percentageDescLE, decide_eq_true_eq]
  exact fun h1 h2 => le_trans h2 h1

theorem percentageDescLE_total (a b : Color) :
    percentageDescLE a b || percentageDescLE b a := by
  simp only [percentageDescLE, Bool.or_eq_true, decide_eq_true_eq]
  exact le_total b.percentage a.percentage

/-- C1: the color lists produced by the `ColorsResponse` and
`ImageDetailResponse` constructors are permutations of their backend input
ordered by non-increasing percentage. -/
theorem colorsResponse_perm_sorted (data : List Color) (d : ImageDetailResponseData) :
    (colorsResponse data).Perm data ∧
    (colorsResponse data).Pairwise (fun a b => b.percentage ≤ a.percentage) ∧
    ((imageDetailResponse d).colors).Perm d.colors ∧
    ((imageDetailResponse d).colors).Pairwise (fun a b => b.percentage ≤ a.percentage) ∧
    (imageDetailResponse d).image = d.image := by
  refine ⟨List.mergeSort_perm data percentageDescLE, ?_,
    List.mergeSort_perm d.colors percentageDescLE, ?_, rfl⟩ <;>
  · exact (List.sorted_mergeSort percentageDescLE_trans percentageDescLE_total _).imp
      (fun h => by simpa [percentageDescLE] using h)

/-- A JS `File` value as seen by the form validators of
`ImageLoaderComponent`: a declared MIME `type` and a byte `size`. -/
structure JsFile where
  type : String
  size : Nat
deriving DecidableEq, Repr

/-- The validation-error objects returned by the two file validators. -/
inductive FileValidationError where
  | invalidFileType (value : String)
  | fileTooLarge (value : Nat)
deriving DecidableEq, Repr

/-- Validator `fileTypeValidator` (image-loader component, lines 391-399): a falsy
control value (the empty-string reset value, modelled as `none`) passes;
otherwise the declared content type must belong to `allowedTypes`. -/
def fileTypeValidator (allowedTypes : List String) (value : Option JsFile) :
    Option FileValidationError :=
  match value with
  | none => none
  | some f =>
    if f.type ∈ allowedTypes then none else some (.invalidFileType f.type)

/-- Constant `MAX_IMAGE_FILE_SIZE_MB = 5` (image-loader component, line 213). -/
def MAX_IMAGE_FILE_SIZE_MB : Nat := 5

/-- Validator `fileSizeValidator` (image-loader component, lines 402-410): a falsy
control value passes; otherwise the byte size must be at most
`allowedSize * 2^20`. -/
def fileSizeValidator (allowedSize : Nat) (value : Option JsFile) :
    Option FileValidationError :=
  match value with
  | none => none
  | some f =>
    if f.size ≤ allowedSize * 2 ^ 20 then none else some (.fileTooLarge f.size)

/-- C2: with the configured 5 MB maximum, the size check accepts a submitted
file exactly when its byte length is at most `5 * 2^20 = 5242880`; a 6 MB
file is rejected with the `fileTooLarge` error and a file of exactly
5242880 bytes is accepted. -/
theorem fileSizeValidator_boundary (f : JsFile) :
    (fileSizeValidator MAX_IMAGE_FILE_SIZE_MB (some f) = none ↔ f.size ≤ 5242880) ∧
    MAX_IMAGE_FILE_SIZE_MB * 2 ^ 20 = 5242880 ∧
    fileSizeValidator MAX_IMAGE_FILE_SIZE_MB
      (some { type := "image/jpeg", size := 6 * 2 ^ 20 }) =
      some (.fileTooLarge (6 * 2 ^ 20)) ∧
    fileSizeValidator MAX_IMAGE_FILE_SIZE_MB
      (some { type := "image/jpeg", size := 5242880 }) = none := by
  refine ⟨?_, by decide, by decide, by decide⟩
  simp only [fileSizeValidator, MAX_IMAGE_FILE_SIZE_MB]
  constructor
  · intro h
    by_contra hc
    simp only [show ¬ f.size ≤ 5 * 2 ^ 20 by omega, if_false] at h
    exact Option.noConfusion h
  · intro h
    simp only [show f.size ≤ 5 * 2 ^ 20 by omega, if_true]

/-- C3: the type check rejects a submitted file exactly when its declared
content type lies outside the allowed set; in particular a BMP file is
rejected when only JPEG/PNG are allowed. -/
theorem fileTypeValidator_membership (allowedTypes : List String) (f : JsFile) :
    ((fileTypeValidator allowedTypes (some f)).isSome ↔ f.type ∉ allowedTypes) ∧
    fileTypeValidator ["image/jpeg", "image/png"]
      (some { type := "image/bmp", size := 100 }) =
      some (.invalidFileType "image/bmp") := by
  refine ⟨?_, by decide⟩
  simp only [fileTypeValidator]
  by_cases h : f.type ∈ allowedTypes <;> simp [h]

/-- The `rate_limit` section of the default profile of `config.yaml`
(lines 32-37). -/
structure RateLimitConfig where
  color_extraction_concurrency : Nat
  color_extraction_ip_time_interval : Nat
  color_extraction_ip_limit : Nat
  image_search_ip_time_interval : Nat
  image_search_ip_limit : Nat
deriving DecidableEq, Repr

/-- Deployed default `rate_limit` values from `config.yaml`. -/
def defaultRateLimit : RateLimitConfig :=
  { color_extraction_concurrency := 20
    color_extraction_ip_time_interval := 300
    color_extraction_ip_limit := 10
    image_search_ip_time_interval := 60
    image_search_ip_limit := 15 }

/-- The `colorific` section of the default profile of `config.yaml`
(lines 13-30); durations are in seconds, sizes in bytes. -/
structure ColorificConfig where
  allowed_image_content_types : List String
  http_client_retrying_max_attempts : Nat
  http_client_retrying_wait_time : Nat
  http_client_timeout : Nat
  image_max_size_bytes : Nat
  image_max_height : Nat
  image_max_width : Nat
  image_min_height : Nat
  image_min_width : Nat
  pool_exec_size : Nat
deriving DecidableEq, Repr

/-- Deployed default `colorific` values from `config.yaml`. -/
def defaultColorific : ColorificConfig :=
  { allowed_image_content_types := ["image/jpeg", "image/png"]
    http_client_retrying_max_attempts := 5
    http_client_retrying_wait_time := 3
    http_client_timeout := 30
    image_max_size_bytes := 5242880
    image_max_height := 8000
    image_max_width := 8000
    image_min_height := 50
    image_min_width := 50
    pool_exec_size := 2 }

/-- C6: the deployed default configuration limits color extraction to 10
requests per 300 seconds per client IP with 20 concurrent extractions
globally, and color search to a separate limit of 15 requests per 60
seconds per IP. -/
theorem defaultRateLimit_values :
    defaultRateLimit.color_extraction_ip_limit = 10 ∧
    defaultRateLimit.color_extraction_ip_time_interval = 300 ∧
    defaultRateLimit.color_extraction_concurrency = 20 ∧
    defaultRateLimit.image_search_ip_limit = 15 ∧
    defaultRateLimit.image_search_ip_time_interval = 60 := by
  decide

/-- Outcome of a single HTTP GET attempt, as classified by the Retrying
Fetch Client: success, a transient failure (network error, 5xx, timeout)
that may be retried, or a non-transient failure (4xx except 429, malformed
URL) that fails immediately. -/
inductive AttemptOutcome where
  | success
  | transientFailure
  | permanentFailure
deriving DecidableEq, Repr

/-- Modelled from the spec: the Retrying Fetch Client (spec section 4.4) is
backend code absent from `src/`.  `outcomes i` is the outcome of the `i`-th
attempt; the client performs at most `budget` attempts, retrying only on
transient failures after the configured fixed wait.  The value is the number
of attempts actually made on a fetch. -/
def attemptsUsed (outcomes : Nat → AttemptOutcome) : Nat → Nat → Nat
  | _, 0 => 0
  | i, b + 1 =>
    match outcomes i with
    | .success => 1
    | .permanentFailure => 1
    | .transientFailure => 1 + attemptsUsed outcomes (i + 1) b

theorem attemptsUsed_le (outcomes : Nat → AttemptOutcome) :
    ∀ b i, attemptsUsed outcomes i b ≤ b := by
  intro b
  induction b with
  | zero => intro i; simp [attemptsUsed]
  | succ n ih =>
    intro i
    simp only [attemptsUsed]
    cases outcomes i with
    | success => show 1 ≤ n + 1; omega
    | permanentFailure => show 1 ≤ n + 1; omega
    | transientFailure =>
      show 1 + attemptsUsed outcomes (i + 1) n ≤ n + 1
      have := ih (i + 1)
      omega

/-- C7: under the deployed default configuration the retrying fetch client
makes at most 5 attempts per fetch, waits a fixed 3 seconds between
attempts, and bounds each attempt by a 30-second timeout. -/
theorem retryingClient_budget (outcomes : Nat → AttemptOutcome) :
    attemptsUsed outcomes 1 defaultColorific.http_client_retrying_max_attempts ≤ 5 ∧
    defaultColorific.http_client_retrying_max_attempts = 5 ∧
    defaultColorific.http_client_retrying_wait_time = 3 ∧
    defaultColorific.http_client_timeout = 30 := by
  refine ⟨?_, rfl, rfl, rfl⟩
  exact attemptsUsed_le outcomes 5 1

/-- Ambient run-to-run state (e.g. the process RNG) that could in principle
vary between two executions of the extractor on the same input. -/
structure RunContext where
  rngSeed : Nat
deriving DecidableEq, Repr

/-- A decoded pixel: an RGB triple of channel values. -/
abbrev Pixel := Nat × Nat × Nat

/-- Modelled from the spec: the Color Extractor (spec section 4.2) is backend
code absent from `src/`.  Raw bytes decode to pixels three bytes at a
time. -/
def pixelsOfBytes : List Nat → List Pixel
  | r :: g :: b :: rest => (r, g, b) :: pixelsOfBytes rest
  | _ => []

/-- Modelled from the spec: the clustering seed is derived deterministically
per call from the input bytes and `k`, never from ambient randomness. -/
def seedOfCall (bytes : List Nat) (k : Nat) : Nat :=
  bytes.foldl (fun acc b => (acc * 31 + b) % 1000003) (k + 1)

/-- Modelled from the spec: a partition-based clustering of the sampled
pixels into at most `k` groups, each reported as a centroid color with its
share of sampled pixels; the spec does not prescribe the clustering
numerics, so groups are the distinct pixel values ordered by frequency and
the given seed breaks no ties.  All choices are functions of the
arguments. -/
def extractColors (seed : Nat) (pixels : List Pixel) (k : Nat) : List Color :=
  let distinct := pixels.dedup
  let sorted := List.mergeSort distinct
    (fun a b => decide (pixels.count b + seed ≤ pixels.count a + seed))
  (sorted.take k).map (fun p =>
    { red := p.1
      green := p.2.1
      blue := p.2.2
      percentage := (pixels.count p : Rat) / (pixels.length : Rat)
      name := none
      name_distance := none })

/-- Modelled from the spec: `extract(decoded_image, k)` seeds clustering
deterministically from the call, so the ambient `RunContext` is not
consulted. -/
def extract (_ctx : RunContext) (bytes : List Nat) (k : Nat) : List Color :=
  extractColors (seedOfCall bytes k) (pixelsOfBytes bytes) k

/-- C8: two extraction runs on identical input bytes with the same `k`
return the same color list, whatever the ambient run-to-run state of each
execution. -/
theorem extract_deterministic (ctx1 ctx2 : RunContext) (bytes : List Nat) (k : Nat) :
    extract ctx1 bytes k = extract ctx2 bytes k := rfl

/-- JS `n.toString(16)` on a nonnegative integer: lowercase base-16 digits
without leading zeros, `"0"` for zero; `Nat.toDigits 16` produces exactly
these digits. -/
def jsHexString (n : Nat) : String :=
  String.mk (Nat.toDigits 16 n)

/-- JS `padStart(2, "0")`: left-pad with zeros to length 2. -/
def padStart2 (s : String) : String :=
  String.mk (List.replicate (2 - s.data.length) '0') ++ s

/-- Method `Color.toHex` (`types.ts` lines 28-32): each channel rendered as two
lowercase hex digits, concatenated red-green-blue. -/
def Color.toHex (c : Color) : String :=
  padStart2 (jsHexString c.red) ++ padStart2 (jsHexString c.green) ++
    padStart2 (jsHexString c.blue)

/-- A character accepted by the character class of the route regex:
a decimal digit or a lowercase letter between a and f. -/
def isHexLowerDigit (c : Char) : Bool :=
  ('0' ≤ c && c ≤ '9') || ('a' ≤ c && c ≤ 'f')

/-- The anchored six-hex-digit regex of the image-list route matcher
(`app-routing.module.ts` line 21). -/
def matchesHex6 (s : String) : Bool :=
  s.data.length == 6 && s.data.all isHexLowerDigit

/-- The custom route matcher of `app-routing.module.ts` lines 17-30: a URL of
exactly two segments, the first `images`, the second matching the regex,
is consumed with the second segment bound to the `rgb` parameter. -/
def routeMatch : List String → Option String
  | [seg0, seg1] =>
    if seg0 == "images" && matchesHex6 seg1 then some seg1 else none
  | _ => none

set_option maxRecDepth 8192

theorem padded_hex_ok : ∀ n, n < 256 →
    (padStart2 (jsHexString n)).data.length = 2 ∧
    (padStart2 (jsHexString n)).data.all isHexLowerDigit = true := by
  decide

theorem string_data_append (a b : String) : (a ++ b).data = a.data ++ b.data := by
  cases a
  cases b
  rfl

/-- C9: for channels in [0, 255], `Color.toHex` yields a 6-character
lowercase hexadecimal string, and the route URL `/images/<that string>` is
accepted by the image-list route matcher. -/
theorem toHex_matches_route (c : Color)
    (hr : c.red ≤ 255) (hg : c.green ≤ 255) (hb : c.blue ≤ 255) :
    c.toHex.data.length = 6 ∧
    matchesHex6 c.toHex = true ∧
    routeMatch ["images", c.toHex] = some c.toHex := by
  obtain ⟨hrl, hrh⟩ := padded_hex_ok c.red (by omega)
  obtain ⟨hgl, hgh⟩ := padded_hex_ok c.green (by omega)
  obtain ⟨hbl, hbh⟩ := padded_hex_ok c.blue (by omega)
  have hdata : c.toHex.data =
      (padStart2 (jsHexString c.red)).data ++
        ((padStart2 (jsHexString c.green)).data ++
          (padStart2 (jsHexString c.blue)).data) := by
    simp [Color.toHex, string_data_append]
  have hlen : c.toHex.data.length = 6 := by
    rw [hdata]
    simp only [List.length_append, hrl, hgl, hbl]
  have hall : c.toHex.data.all isHexLowerDigit = true := by
    rw [hdata]
    simp only [List.all_append, hrh, hgh, hbh, Bool.and_self]
  have hm : matchesHex6 c.toHex = true := by
    simp only [matchesHex6, hlen, hall, Bool.and_true]
    rfl
  refine ⟨hlen, hm, ?_⟩
  simp only [routeMatch, hm, Bool.and_true]
  rfl

/-- A concrete palette color used to instantiate `toHex_matches_route`. -/
def sampleColor : Color :=
  { red := 255
    green := 0
    blue := 16
    percentage := 1 / 2
    name := none
    name_distance := none }

/-- Witness for C9 at the concrete color (255, 0, 16). -/
theorem toHex_matches_route_witness :
    sampleColor.toHex.data.length = 6 ∧
    matchesHex6 sampleColor.toHex = true ∧
    routeMatch ["images", sampleColor.toHex] = some sampleColor.toHex :=
  toHex_matches_route sampleColor (by decide) (by decide) (by decide)

/-- State of the two controls of the submission form of
`ImageLoaderComponent`: `imageFile` holds a file or the empty reset value
(`none`), `imageURL` holds a string. -/
structure LoaderFormState where
  imageFile : Option JsFile
  imageURL : String
deriving DecidableEq, Repr

/-- Both controls are created with the initial value `''`
(image-loader component, lines 224-237). -/
def initialForm : LoaderFormState :=
  { imageFile := none, imageURL := "" }

/-- A user edit: choosing a file (or clearing the file input) or typing a
URL value. -/
inductive FormEdit where
  | setImageFile (v : Option JsFile)
  | setImageURL (v : String)
deriving DecidableEq, Repr

/-- One user edit together with the cross-reset subscriptions installed in
`ngOnInit` (image-loader component, lines 256-263): a value change of
`imageFile` resets `imageURL` to `''` (with `emitEvent: false`, so no
further cascade), and a value change of `imageURL` resets `imageFile` to
`''`; the extra reset of an empty `imageURL` leaves the value `''`
unchanged. -/
def applyEdit (s : LoaderFormState) : FormEdit → LoaderFormState
  | .setImageFile v => { s with imageFile := v, imageURL := "" }
  | .setImageURL v => { s with imageFile := none, imageURL := v }

/-- The form state after a sequence of user edits, starting from the
initial state. -/
def runEdits (edits : List FormEdit) : LoaderFormState :=
  edits.foldl applyEdit initialForm

/-- Request body assembled by `submitForm`: either raw file bytes or a
JSON object with a single `url` key, never both. -/
inductive SubmitBody where
  | fileBytes (f : JsFile)
  | urlJson (url : String)
deriving DecidableEq, Repr

/-- Body selection in `submitForm` (image-loader component, lines 342-350):
a truthy `imageFile` value is sent as raw bytes, otherwise `{url: ...}` is
sent. -/
def submitBody (s : LoaderFormState) : SubmitBody :=
  match s.imageFile with
  | some f => .fileBytes f
  | none => .urlJson s.imageURL

theorem applyEdit_exclusive (s : LoaderFormState) (e : FormEdit) :
    (applyEdit s e).imageFile = none ∨ (applyEdit s e).imageURL = "" := by
  cases e with
  | setImageFile v => exact Or.inr rfl
  | setImageURL v => exact Or.inl rfl

theorem foldl_applyEdit_exclusive (edits : List FormEdit) (s : LoaderFormState)
    (h : s.imageFile = none ∨ s.imageURL = "") :
    (edits.foldl applyEdit s).imageFile = none ∨
      (edits.foldl applyEdit s).imageURL = "" := by
  induction edits generalizing s with
  | nil => exact h
  | cons e rest ih => exact ih (applyEdit s e) (applyEdit_exclusive s e)

/-- C10: after any sequence of user edits at most one of the two controls
holds a non-empty value, and `submitForm` sends either raw file bytes (with
the URL control empty) or a `{url: ...}` body (with the file control
empty), never both. -/
theorem form_controls_exclusive (edits : List FormEdit) :
    ((runEdits edits).imageFile = none ∧
        submitBody (runEdits edits) = .urlJson (runEdits edits).imageURL) ∨
      (∃ f, (runEdits edits).imageFile = some f ∧
        (runEdits edits).imageURL = "" ∧
        submitBody (runEdits edits) = .fileBytes f) := by
  have h := foldl_applyEdit_exclusive edits initialForm (Or.inl rfl)
  cases hf : (runEdits edits).imageFile with
  | none => exact Or.inl ⟨rfl, by simp [submitBody, hf]⟩
  | some f =>
    refine Or.inr ⟨f, rfl, ?_, by simp [submitBody, hf]⟩
    rcases h with h | h
    · rw [runEdits] at hf
      rw [h] at hf
      exact Option.noConfusion hf
    · exact h

/-- The URL built by `ImageListComponent.fetchImages`
(image-list.component.ts line 60): the template literal
appends the selected hex string to the fixed prefix ending in `?rgb=`. -/
def fetchImagesURL (rgb : String) : String :=
  "http://localhost:8000/images?rgb=" ++ rgb

/-- The query string of a URL: everything after the first `?`. -/
def queryOfURL (url : String) : String :=
  String.mk ((url.data.dropWhile (fun x => x != '?')).drop 1)

/-- The name of the first query parameter: everything before the first `=`
of the query string. -/
def queryParamNameOfURL (url : String) : String :=
  String.mk ((queryOfURL url).data.takeWhile (fun x => x != '='))

/-- Counterexample to C4: the search request built for the hex string
`ff0000` does not pass it in a query parameter named `color`. -/
theorem fetchImagesURL_not_color_param :
    queryParamNameOfURL (fetchImagesURL "ff0000") ≠ "color" := by
  decide

/-- C4 (amended): every color search request is issued as
`GET /images?rgb=<hex>` against the configured host — the target color hex
string is passed in a query parameter named `rgb`. -/
theorem fetchImagesURL_rgb_param (hex : String) :
    fetchImagesURL hex = "http://localhost:8000/images?rgb=" ++ hex ∧
    queryParamNameOfURL (fetchImagesURL hex) = "rgb" := by
  obtain ⟨l⟩ := hex
  exact ⟨rfl, rfl⟩

/-- The `Image` record of a search-result entry
(`image-list.component.ts` lines 7-13). -/
structure ImageResult where
  id : String
  details_url : String
  regular_url : String
  small_url : String
  has_colors : Bool
deriving DecidableEq, Repr

/-- The paginated `ImageListResponse`
(`image-list.component.ts` lines 16-21). -/
structure ImageListResponse where
  count : Nat
  next : Option String
  previous : Option String
  results : List ImageResult
deriving DecidableEq, Repr

/-- The field names of the `Image` interface of
`image-list.component.ts` lines 7-13, in declaration order — the record
shape of one search-result entry. -/
def imageResultFields : List String :=
  ["id", "details_url", "regular_url", "small_url", "has_colors"]

/-- The field names of `ImageListResponse`
(`image-list.component.ts` lines 16-21), in declaration order. -/
def imageListResponseFields : List String :=
  ["count", "next", "previous", "results"]

/-- The result-entry field names the claim asserts, written from the spec's
words (`results: [{id, origin, url_big, url_thumb}, ...]`), for comparison
with `imageResultFields`. -/
def specClaimedResultFields : List String :=
  ["id", "origin", "url_big", "url_thumb"]

/-- Component state updated by `ImageListComponent.fetchImages`
(lines 62-68). -/
structure ImageListComponentState where
  count : Nat
  next_url : Option String
  previous_url : Option String
  images : List ImageResult
deriving DecidableEq, Repr

/-- The success branch of `fetchImages` (image-list.component.ts lines
62-68): copies `results`, `count`, `next` and `previous` from the response
into the component state. -/
def applyFetchResponse (resp : ImageListResponse) : ImageListComponentState :=
  { count := resp.count
    next_url := resp.next
    previous_url := resp.previous
    images := resp.results }

/-- Counterexample to C5: the result entries consumed by the image list
carry none of the claimed `origin`, `url_big`, `url_thumb` fields. -/
theorem imageResultFields_not_as_claimed :
    "origin" ∈ specClaimedResultFields ∧ "origin" ∉ imageResultFields ∧
    "url_big" ∉ imageResultFields ∧ "url_thumb" ∉ imageResultFields := by
  decide

/-- C5 (amended): every entry of the `results` array of the paginated
search response is an image record with the fields `id`, `details_url`,
`regular_url`, `small_url` and `has_colors`, the response carries `count`,
`next` and `previous` pagination fields, and `fetchImages` copies all four
response fields into the component state. -/
theorem imageListResponse_shape (resp : ImageListResponse) :
    imageResultFields = ["id", "details_url", "regular_url", "small_url", "has_colors"] ∧
    imageListResponseFields = ["count", "next", "previous", "results"] ∧
    (applyFetchResponse resp).images = resp.results ∧
    (applyFetchResponse resp).count = resp.count ∧
    (applyFetchResponse resp).next_url = resp.next ∧
    (applyFetchResponse resp).previous_url = resp.previous :=
  ⟨rfl, rfl, rfl, rfl, rfl, rfl⟩

end Colorific
